import Mathlib

/-!
Shallow embedding of the Upstox MCP repository
(`upstox_auth.py` and `upstox_server.py`).

Python optional strings are modelled as `Option String` (with `none` for
Python `None`), Python truthiness of such a value by `truthyStr`, the
process environment by an explicit `Env` record, the file system by an
explicit map from paths to parsed file contents, and the remote SDK
boundary by explicit response parameters of type `Except String _`
(`Except.error` models a raised exception at the boundary).  Every remote
call an operation performs is recorded in a returned `List RemoteCall`.
-/

/-- Python truthiness of an optional string: `None` and the empty string
are falsy, every other string is truthy. -/
def truthyStr : Option String → Bool
  | none => false
  | some s => !s.isEmpty

/-- Python `x or y` on optional strings: `x` when truthy, else `y`. -/
def pyOrStr (x y : Option String) : Option String :=
  if truthyStr x then x else y

/-- Python f-string rendering of an optional string (`None` prints as
the four-letter word). -/
def fstr : Option String → String
  | none => "None"
  | some s => s

/-- The three environment variables read by `UpstoxAuth.__init__`
(`none` models an unset variable). -/
structure Env where
  UPSTOX_API_KEY : Option String
  UPSTOX_API_SECRET : Option String
  UPSTOX_REDIRECT_URI : Option String
deriving DecidableEq

/-- The fields of the SDK token-endpoint response that
`set_access_token` reads. -/
structure TokenResponse where
  access_token : String
  user_name : String
  email : String
  user_id : String
  broker : String
deriving DecidableEq

/-- The user-identity sub-dict of the dict returned by
`set_access_token`. -/
structure UserInfo where
  user_name : String
  email : String
  user_id : String
  broker : String
deriving DecidableEq

/-- The dict returned by a successful `set_access_token`. -/
structure TokenInfo where
  access_token : Option String
  expires_at : Option String
  authenticated : Bool
  user_info : UserInfo
deriving DecidableEq

/-- The profile fields read and returned by `get_user_profile`
(the Python method copies exactly these fields of the SDK response
into the returned dict). -/
structure Profile where
  user_name : String
  email : String
  user_id : String
  broker : String
  exchanges : List String
  products : List String
  user_type : String
  poa : Bool
  is_active : Bool
deriving DecidableEq

/-- One element of the SDK market-status response list. -/
structure ExchangeStatus where
  exchange : String
  market_status : String
deriving DecidableEq

/-- Parsed content of a token file as `load_token_from_file` sees it
after `json.load`: the two fields it reads via `.get` (plus `saved_at`,
written by `save_token_to_file` and ignored on load). -/
structure TokenFile where
  access_token : Option String
  expires_at : Option String
  saved_at : Option String
deriving DecidableEq

/-- File system: maps a path to `none` (no file), `some none`
(file exists but `json.load` raises), or `some (some d)` (file exists
and parses to record `d`). -/
abbrev FS := String → Option (Option TokenFile)

/-- A call crossing the remote SDK boundary. -/
inductive RemoteCall where
  | tokenCall (code : String)
  | profileCall
  | marketCall
deriving DecidableEq

/-- The mutable state of an `UpstoxAuth` object: credentials fixed at
construction, the SDK configuration token mirror, and the session
fields (`access_token`, `token_expires_at`, `is_authenticated`). -/
structure UpstoxAuth where
  api_key : Option String
  api_secret : Option String
  redirect_uri : String
  config_access_token : Option String
  access_token : Option String
  token_expires_at : Option String
  is_authenticated : Bool
deriving DecidableEq

/-- `UpstoxAuth.__init__`: resolve each credential with Python `or`
against the environment, default the redirect target, and raise
(model: `Except.error`) when key or secret resolves falsy. -/
def UpstoxAuth.init (api_key api_secret redirect_uri : Option String)
    (env : Env) : Except String UpstoxAuth :=
  let key := pyOrStr api_key env.UPSTOX_API_KEY
  let secret := pyOrStr api_secret env.UPSTOX_API_SECRET
  let redirect : String :=
    match redirect_uri with
    | some s =>
        if s.isEmpty then env.UPSTOX_REDIRECT_URI.getD "http://localhost:8080" else s
    | none => env.UPSTOX_REDIRECT_URI.getD "http://localhost:8080"
  if truthyStr key = false || truthyStr secret = false then
    Except.error "API key and secret are required. Provide them as parameters or set UPSTOX_API_KEY and UPSTOX_API_SECRET environment variables."
  else
    Except.ok
      { api_key := key
        api_secret := secret
        redirect_uri := redirect
        config_access_token := none
        access_token := none
        token_expires_at := none
        is_authenticated := false }

/-- `UpstoxAuth.get_auth_url`: pure concatenation of the fixed base URL
and the four query parameters, in the order of the source f-string. -/
def UpstoxAuth.get_auth_url (a : UpstoxAuth) (state : String) : String :=
  let base_url := "https://api.upstox.com/v2/login/authorization/dialog"
  base_url ++ "?response_type=code&client_id=" ++ fstr a.api_key ++
    "&redirect_uri=" ++ a.redirect_uri ++ "&state=" ++ state

/-- `UpstoxAuth.set_access_token`: call the remote token endpoint with
the code; on success store token, the fixed expiry description and the
authenticated flag and return the token dict; on a raised remote error
re-raise it wrapped in the fixed message.  Returns
(result, post-state, remote calls made). -/
def UpstoxAuth.set_access_token (a : UpstoxAuth) (authorization_code : String)
    (remote : String → Except String TokenResponse) :
    Except String TokenInfo × UpstoxAuth × List RemoteCall :=
  match remote authorization_code with
  | Except.error e =>
      (Except.error ("Failed to exchange authorization code: " ++ e), a,
        [RemoteCall.tokenCall authorization_code])
  | Except.ok r =>
      let a2 :=
        { a with
            access_token := some r.access_token
            token_expires_at := some "3:30 AM next trading day"
            config_access_token := some r.access_token
            is_authenticated := true }
      (Except.ok
        { access_token := some r.access_token
          expires_at := some "3:30 AM next trading day"
          authenticated := true
          user_info :=
            { user_name := r.user_name
              email := r.email
              user_id := r.user_id
              broker := r.broker } },
        a2, [RemoteCall.tokenCall authorization_code])

/-- `UpstoxAuth.load_token_from_file`: if the file exists and parses,
assign `access_token` and `token_expires_at` from the record, then only
when the loaded token is truthy set the configuration token and the
authenticated flag and return `True`; every other path returns `False`
(exceptions are swallowed).  Returns (result, post-state). -/
def UpstoxAuth.load_token_from_file (a : UpstoxAuth) (file_path : String)
    (fs : FS) : Bool × UpstoxAuth :=
  match fs file_path with
  | none => (false, a)
  | some none => (false, a)
  | some (some d) =>
      let a1 := { a with access_token := d.access_token, token_expires_at := d.expires_at }
      if truthyStr d.access_token then
        (true, { a1 with config_access_token := d.access_token, is_authenticated := true })
      else
        (false, a1)

/-- `UpstoxAuth.save_token_to_file`: when the in-memory token is truthy,
write the whole record (token, expiry, save timestamp) to the path and
return `True`; a write failure (modelled by `writeOk = false`) is
swallowed and reported as `False`; with no truthy token nothing is
written and `False` is returned.  Returns (result, post-state, post file
system). -/
def UpstoxAuth.save_token_to_file (a : UpstoxAuth) (file_path : String)
    (now : String) (fs : FS) (writeOk : Bool) : Bool × UpstoxAuth × FS :=
  if truthyStr a.access_token then
    if writeOk then
      (true, a, fun p =>
        if p = file_path then
          some (some
            { access_token := a.access_token
              expires_at := a.token_expires_at
              saved_at := some now })
        else fs p)
    else (false, a, fs)
  else (false, a, fs)

/-- `UpstoxAuth.get_user_profile`: raise when not authenticated (before
any remote call), otherwise call the remote profile endpoint and copy
its fields into the returned dict, wrapping a remote failure in the
fixed message. -/
def UpstoxAuth.get_user_profile (a : UpstoxAuth)
    (remote : Except String Profile) :
    Except String Profile × List RemoteCall :=
  if a.is_authenticated = false then
    (Except.error "Not authenticated. Please set access token first.", [])
  else
    match remote with
    | Except.ok p => (Except.ok p, [RemoteCall.profileCall])
    | Except.error e =>
        (Except.error ("Failed to get user profile: " ++ e), [RemoteCall.profileCall])

/-- Python dict insertion for string keys: replace the value when the
key is present, else append the pair. -/
def dictInsert (d : List (String × String)) (k v : String) :
    List (String × String) :=
  if d.any (fun p => p.1 = k) then
    d.map (fun p => if p.1 = k then (k, v) else p)
  else d ++ [(k, v)]

/-- `UpstoxAuth.get_market_status`: raise when not authenticated (before
any remote call), otherwise fold the remote status list into a dict
keyed by exchange, wrapping a remote failure in the fixed message. -/
def UpstoxAuth.get_market_status (a : UpstoxAuth)
    (remote : Except String (List ExchangeStatus)) :
    Except String (List (String × String)) × List RemoteCall :=
  if a.is_authenticated = false then
    (Except.error "Not authenticated. Please set access token first.", [])
  else
    match remote with
    | Except.ok l =>
        (Except.ok (l.foldl (fun d es => dictInsert d es.exchange es.market_status) []),
          [RemoteCall.marketCall])
    | Except.error e =>
        (Except.error ("Failed to get market status: " ++ e), [RemoteCall.marketCall])

/-- The dict returned by `check_connection`. -/
structure ConnResult where
  connected : Bool
  error : Option String
  user_name : Option String
  broker : Option String
  exchanges : Option (List String)
deriving DecidableEq

/-- `UpstoxAuth.check_connection`: a structured, never-raising probe
around `get_user_profile`. -/
def UpstoxAuth.check_connection (a : UpstoxAuth)
    (remote : Except String Profile) : ConnResult × List RemoteCall :=
  if a.is_authenticated = false then
    ({ connected := false, error := some "Not authenticated",
       user_name := none, broker := none, exchanges := none }, [])
  else
    match a.get_user_profile remote with
    | (Except.ok p, calls) =>
        ({ connected := true, error := none, user_name := some p.user_name,
           broker := some p.broker, exchanges := some p.exchanges }, calls)
    | (Except.error e, calls) =>
        ({ connected := false, error := some e,
           user_name := none, broker := none, exchanges := none }, calls)

/-- The session invariant claimed by the spec: the authenticated flag
agrees with truthiness (non-empty presence) of the access token. -/
def sessionInv (a : UpstoxAuth) : Prop :=
  a.is_authenticated = truthyStr a.access_token

/-- One entry of the categorized stock dataset (`name` may be absent,
as the server reads it with `.get`). -/
structure Stock where
  symbol : String
  name : Option String
  instrument_key : String
deriving DecidableEq

/-- One record appended to `matches` by `search_stocks`. -/
structure MatchRec where
  symbol : String
  name : String
  instrument_key : String
  category : String
deriving DecidableEq

/-- Python `str.lower` (character-wise lowering, as on the ASCII data
of the stock dataset). -/
def pyLower (s : String) : String := String.mk (s.data.map Char.toLower)

/-- Python `p in l` on character lists: `p` occurs contiguously in `l`. -/
def listContainsSub (p : List Char) : List Char → Bool
  | [] => List.isPrefixOf p []
  | c :: t => List.isPrefixOf p (c :: t) || listContainsSub p t

/-- The match test of `search_stocks`: the lowered search term occurs
in the lowered symbol or in the lowered name (missing name reads as the
empty string). -/
def stockMatches (search_lower : String) (stock : Stock) : Bool :=
  listContainsSub search_lower.data (pyLower stock.symbol).data ||
    listContainsSub search_lower.data (pyLower (stock.name.getD "")).data

/-- The inner `for stock in stocks` loop of `search_stocks`: append each
match and break as soon as the accumulated matches reach `limit`. -/
def innerLoop (sl : String) (limit : Int) (category : String) :
    List Stock → List MatchRec → List MatchRec
  | [], acc => acc
  | stock :: rest, acc =>
      if stockMatches sl stock then
        let acc2 := acc ++
          [{ symbol := stock.symbol
             name := stock.name.getD "N/A"
             instrument_key := stock.instrument_key
             category := category }]
        if (acc2.length : Int) ≥ limit then acc2
        else innerLoop sl limit category rest acc2
      else innerLoop sl limit category rest acc

/-- The outer `for category, stocks` loop of `search_stocks`, breaking
once the accumulated matches reach `limit`. -/
def outerLoop (sl : String) (limit : Int) :
    List (String × List Stock) → List MatchRec → List MatchRec
  | [], acc => acc
  | (category, stocks) :: rest, acc =>
      let acc2 := innerLoop sl limit category stocks acc
      if (acc2.length : Int) ≥ limit then acc2
      else outerLoop sl limit rest acc2

/-- The match list computed by `search_stocks` for a loaded dataset. -/
def search_stocks_matches (categorized : List (String × List Stock))
    (search_term : String) (limit : Int) : List MatchRec :=
  outerLoop (pyLower search_term) limit categorized []

/-- One formatted entry of the `search_stocks` result text. -/
def formatMatch (idx : Nat) (m : MatchRec) : String :=
  toString idx ++ ". " ++ m.symbol ++ " - " ++ m.name ++
    "\n   Instrument Key: " ++ m.instrument_key ++
    "\n   Category: " ++ m.category ++ "\n\n"

/-- `search_stocks` tool: search the categorized dataset (`none` models
a missing or unreadable dataset file) and return formatted text, a
not-found text when nothing matches, or the data-unavailable text. -/
def search_stocks (data : Option (List (String × List Stock)))
    (search_term : String) (limit : Int) : String :=
  match data with
  | none => "❌ Error: Stock data not available"
  | some categorized_stocks =>
      let found := search_stocks_matches categorized_stocks search_term limit
      if found.isEmpty then
        "❌ No stocks found matching \x27" ++ search_term ++ "\x27"
      else
        (found.enumFrom 1).foldl (fun r p => r ++ formatMatch p.1 p.2)
          ("🔍 Search Results for \x27" ++ search_term ++ "\x27 (" ++
            toString found.length ++ " matches):\n\n")

/-- Claim C1: when the remote token exchange fails, `set_access_token`
raises the wrapping exchange error and leaves the session state exactly
as it was before the call (in particular an unauthenticated session
stays unauthenticated). -/
theorem set_access_token_failure_spec :
    ∀ (a : UpstoxAuth) (code e : String)
      (remote : String → Except String TokenResponse),
    remote code = Except.error e →
    (a.set_access_token code remote).1 =
        Except.error ("Failed to exchange authorization code: " ++ e) ∧
    (a.set_access_token code remote).2.1 = a := by
  intro a code e remote h
  simp [UpstoxAuth.set_access_token, h]

/-- Witness for claim C1 at a concrete session and a remote rejection. -/
theorem set_access_token_failure_instance :
    (UpstoxAuth.set_access_token
        ⟨some "K", some "S", "http://localhost:8080", none, none, none, false⟩
        "badcode" (fun _ => Except.error "401 Unauthorized")).2.1 =
      ⟨some "K", some "S", "http://localhost:8080", none, none, none, false⟩ :=
  (set_access_token_failure_spec _ "badcode" "401 Unauthorized" _ rfl).2

/-- Claim C3: with the session unauthenticated, `get_user_profile` and
`get_market_status` fail with the not-authenticated error and perform
no remote call (the recorded call list is empty). -/
theorem unauthenticated_calls_blocked :
    ∀ (a : UpstoxAuth) (rp : Except String Profile)
      (rm : Except String (List ExchangeStatus)),
    a.is_authenticated = false →
    a.get_user_profile rp =
        (Except.error "Not authenticated. Please set access token first.", []) ∧
    a.get_market_status rm =
        (Except.error "Not authenticated. Please set access token first.", []) := by
  intro a rp rm h
  simp [UpstoxAuth.get_user_profile, UpstoxAuth.get_market_status, h]

/-- Witness for claim C3 at a freshly constructed session. -/
theorem unauthenticated_calls_blocked_instance :
    (UpstoxAuth.get_user_profile
        ⟨some "K", some "S", "http://localhost:8080", none, none, none, false⟩
        (Except.ok ⟨"u", "e", "i", "b", [], [], "t", false, true⟩)) =
      (Except.error "Not authenticated. Please set access token first.", []) :=
  (unauthenticated_calls_blocked _ _ (Except.ok []) rfl).1

/-- Claim C9: `save_token_to_file` is total (never raises), leaves the
in-memory session untouched, returns `true` exactly when a truthy token
was written successfully, and on a `false` result has not changed the
file system. -/
theorem save_token_to_file_spec :
    ∀ (a : UpstoxAuth) (path now : String) (fs : FS) (w : Bool),
    (a.save_token_to_file path now fs w).2.1 = a ∧
    ((a.save_token_to_file path now fs w).1 = true ↔
      truthyStr a.access_token = true ∧ w = true) ∧
    ((a.save_token_to_file path now fs w).1 = false →
      (a.save_token_to_file path now fs w).2.2 = fs) := by
  intro a path now fs w
  by_cases ht : truthyStr a.access_token = true <;> cases w <;>
    simp [UpstoxAuth.save_token_to_file, ht]

/-- Witness for claim C9: a failed write reports `false` and keeps the
authenticated session intact. -/
theorem save_token_to_file_instance :
    (UpstoxAuth.save_token_to_file
        ⟨some "K", some "S", "u", some "T", some "T", some "E", true⟩
        "p" "now" (fun _ => none) false).2.1 =
      ⟨some "K", some "S", "u", some "T", some "T", some "E", true⟩ :=
  (save_token_to_file_spec _ "p" "now" _ false).1

/-- Claim C4: saving a session holding a truthy token and restoring the
same path in a freshly constructed manager succeeds and reproduces the
token and the authenticated flag. -/
theorem save_load_roundtrip :
    ∀ (a : UpstoxAuth) (path now : String) (fs : FS)
      (k s r : Option String) (env : Env) (fresh : UpstoxAuth),
    truthyStr a.access_token = true →
    UpstoxAuth.init k s r env = Except.ok fresh →
    (a.save_token_to_file path now fs true).1 = true ∧
    (fresh.load_token_from_file path
        (a.save_token_to_file path now fs true).2.2).1 = true ∧
    (fresh.load_token_from_file path
        (a.save_token_to_file path now fs true).2.2).2.access_token =
      a.access_token ∧
    (fresh.load_token_from_file path
        (a.save_token_to_file path now fs true).2.2).2.is_authenticated =
      true := by
  intro a path now fs k s r env fresh ht _hinit
  simp [UpstoxAuth.save_token_to_file, ht, UpstoxAuth.load_token_from_file]

/-- Witness for claim C4 at a concrete authenticated session and a
concrete fresh manager. -/
theorem save_load_roundtrip_instance :
    (UpstoxAuth.load_token_from_file
        ⟨some "K2", some "S2", "http://localhost:8080", none, none, none, false⟩
        "p"
        ((UpstoxAuth.save_token_to_file
            ⟨some "K", some "S", "u", some "T", some "T", some "E", true⟩
            "p" "now" (fun _ => none) true).2.2)).2.access_token = some "T" :=
  (save_load_roundtrip
      ⟨some "K", some "S", "u", some "T", some "T", some "E", true⟩
      "p" "now" (fun _ => none) (some "K2") (some "S2") none
      ⟨none, none, none⟩
      ⟨some "K2", some "S2", "http://localhost:8080", none, none, none, false⟩
      rfl rfl).2.2.1

/-- Claim C5: `load_token_from_file` returns `true` and authenticates
exactly when the file exists, parses, and carries a truthy token field;
in every other case it returns `false` (without raising, the function
being total), and a session that was unauthenticated before the call is
still unauthenticated after it. -/
theorem load_token_from_file_spec :
    ∀ (a : UpstoxAuth) (path : String) (fs : FS),
    ((a.load_token_from_file path fs).1 = true ↔
      ∃ d, fs path = some (some d) ∧ truthyStr d.access_token = true) ∧
    ((a.load_token_from_file path fs).1 = true →
      (a.load_token_from_file path fs).2.is_authenticated = true) ∧
    ((a.load_token_from_file path fs).1 = false →
      a.is_authenticated = false →
      (a.load_token_from_file path fs).2.is_authenticated = false) := by
  intro a path fs
  rcases hfs : fs path with _ | (_ | d)
  · simp [UpstoxAuth.load_token_from_file, hfs]
  · simp [UpstoxAuth.load_token_from_file, hfs]
  · by_cases htok : truthyStr d.access_token = true
    · refine ⟨?_, ?_, ?_⟩
      · simp [UpstoxAuth.load_token_from_file, hfs, htok]
      · intro _
        simp [UpstoxAuth.load_token_from_file, hfs, htok]
      · intro hfalse
        simp [UpstoxAuth.load_token_from_file, hfs, htok] at hfalse
    · refine ⟨?_, ?_, ?_⟩
      · simp [UpstoxAuth.load_token_from_file, hfs, htok]
      · intro htrue
        simp [UpstoxAuth.load_token_from_file, hfs, htok] at htrue
      · intro _ hun
        simp [UpstoxAuth.load_token_from_file, hfs, htok, hun]

/-- Witness for claim C5: restoring a parsed file with a truthy token
succeeds. -/
theorem load_token_from_file_instance :
    (UpstoxAuth.load_token_from_file
        ⟨some "K", some "S", "u", none, none, none, false⟩
        "p" (fun _ => some (some ⟨some "T", none, none⟩))).1 = true :=
  (load_token_from_file_spec
      ⟨some "K", some "S", "u", none, none, none, false⟩
      "p" (fun _ => some (some ⟨some "T", none, none⟩))).1.mpr
    ⟨⟨some "T", none, none⟩, rfl, rfl⟩

/-- Counterexample for claim C2: a session reachable by construction,
a successful exchange, and then `load_token_from_file` on a file that
parses but carries no token, ends with `is_authenticated = true` while
`access_token` is `none` — refuting the claimed invariant that the flag
is true iff the token is a non-empty string. -/
theorem session_invariant_violation :
    (Except.map (fun a0 : UpstoxAuth =>
        let a1 := (a0.set_access_token "code"
          (fun _ => Except.ok ⟨"T", "u", "e", "i", "b"⟩)).2.1
        let a2 := (a1.load_token_from_file "p"
          (fun _ => some (some ⟨none, some "E", none⟩))).2
        (a2.is_authenticated, a2.access_token))
      (UpstoxAuth.init (some "K") (some "S") none ⟨none, none, none⟩))
    = Except.ok (true, none) := by rfl

/-- Claim C2 (amended): the invariant (authenticated flag iff truthy
token) holds after construction and is preserved by every operation,
provided a successful exchange returns a non-empty token string, and
provided `load_token_from_file` is not applied to an authenticated
session with a file that parses but lacks a truthy token — in that
excluded case the code overwrites `access_token` without clearing
`is_authenticated`, which breaks the invariant. -/
theorem session_invariant_preservation :
    (∀ (k s r : Option String) (env : Env) (a : UpstoxAuth),
      UpstoxAuth.init k s r env = Except.ok a → sessionInv a) ∧
    (∀ (a : UpstoxAuth) (code : String)
        (remote : String → Except String TokenResponse),
      sessionInv a →
      (∀ t, remote code = Except.ok t → t.access_token.isEmpty = false) →
      sessionInv (a.set_access_token code remote).2.1) ∧
    (∀ (a : UpstoxAuth) (path : String) (fs : FS),
      sessionInv a →
      (a.is_authenticated = false ∨
        ∀ d, fs path = some (some d) → truthyStr d.access_token = true) →
      sessionInv (a.load_token_from_file path fs).2) ∧
    (∀ (a : UpstoxAuth) (path now : String) (fs : FS) (w : Bool),
      (a.save_token_to_file path now fs w).2.1 = a) := by
  refine ⟨?_, ?_, ?_, ?_⟩
  · intro k s r env a h
    unfold UpstoxAuth.init at h
    by_cases hc : (truthyStr (pyOrStr k env.UPSTOX_API_KEY) = false ||
        truthyStr (pyOrStr s env.UPSTOX_API_SECRET) = false) = true
    · simp only [hc, if_true] at h
      exact absurd h (by simp)
    · simp only [hc, if_false] at h
      cases h
      rfl
  · intro a code remote hinv hok
    cases hr : remote code with
    | error e => simpa [UpstoxAuth.set_access_token, hr, sessionInv] using hinv
    | ok t =>
        have := hok t hr
        simp [UpstoxAuth.set_access_token, hr, sessionInv, truthyStr, this]
  · intro a path fs hinv hside
    rcases hfs : fs path with _ | (_ | d)
    · simpa [UpstoxAuth.load_token_from_file, hfs, sessionInv] using hinv
    · simpa [UpstoxAuth.load_token_from_file, hfs, sessionInv] using hinv
    · by_cases htok : truthyStr d.access_token = true
      · simp [UpstoxAuth.load_token_from_file, hfs, htok, sessionInv]
      · rcases hside with hun | hall
        · simp [UpstoxAuth.load_token_from_file, hfs, htok, sessionInv, hun]
        · exact absurd (hall d hfs) htok
  · intro a path now fs w
    exact (save_token_to_file_spec a path now fs w).1

/-- Witness for the amended claim C2: the invariant is preserved by a
successful exchange returning a non-empty token. -/
theorem session_invariant_preservation_instance :
    sessionInv
      ((UpstoxAuth.set_access_token
          ⟨some "K", some "S", "u", none, none, none, false⟩
          "c" (fun _ => Except.ok ⟨"T", "u", "e", "i", "b"⟩)).2.1) :=
  session_invariant_preservation.2.1
    ⟨some "K", some "S", "u", none, none, none, false⟩
    "c" (fun _ => Except.ok ⟨"T", "u", "e", "i", "b"⟩)
    rfl (fun t ht => by cases ht; rfl)

/-- Counterexample for claim C6: on a session reachable by construction
and a successful exchange, `load_token_from_file` applied to a file that
parses with an empty token field writes `access_token` and
`token_expires_at` but not `is_authenticated` — the operation leaves the
session partially updated, refuting the no-partial-update claim. -/
theorem load_partial_update_exhibit :
    (Except.map (fun a0 : UpstoxAuth =>
        let a1 := (a0.set_access_token "code2"
          (fun _ => Except.ok ⟨"TOK2", "u", "e", "i", "b"⟩)).2.1
        let a2 := (a1.load_token_from_file "t.json"
          (fun _ => some (some ⟨some "", some "E2", none⟩))).2
        (a1.access_token, a1.token_expires_at, a1.is_authenticated,
         a2.access_token, a2.token_expires_at, a2.is_authenticated))
      (UpstoxAuth.init (some "K2") (some "S2") none ⟨none, none, none⟩))
    = Except.ok (some "TOK2", some "3:30 AM next trading day", true,
        some "", some "E2", true) := by rfl

/-- Claim C6 (amended): the session is created empty; a successful
exchange replaces the session fields wholesale and a failed exchange
changes nothing; `load_token_from_file` either changes nothing (missing
or unparseable file), replaces the session wholesale (truthy token), or
— on a parseable file without a truthy token — writes `access_token`
and `token_expires_at` while leaving `is_authenticated` untouched;
`save_token_to_file` never mutates the session. -/
theorem session_mutation_shape :
    (∀ (k s r : Option String) (env : Env) (a : UpstoxAuth),
      UpstoxAuth.init k s r env = Except.ok a →
      a.access_token = none ∧ a.token_expires_at = none ∧
        a.is_authenticated = false) ∧
    (∀ (a : UpstoxAuth) (code : String)
        (remote : String → Except String TokenResponse) (t : TokenResponse),
      remote code = Except.ok t →
      (a.set_access_token code remote).2.1 =
        { a with
            access_token := some t.access_token
            token_expires_at := some "3:30 AM next trading day"
            config_access_token := some t.access_token
            is_authenticated := true }) ∧
    (∀ (a : UpstoxAuth) (code e : String)
        (remote : String → Except String TokenResponse),
      remote code = Except.error e →
      (a.set_access_token code remote).2.1 = a) ∧
    (∀ (a : UpstoxAuth) (path : String) (fs : FS),
      (a.load_token_from_file path fs).2 = a ∨
      (∃ d, fs path = some (some d) ∧
        ((truthyStr d.access_token = true ∧
          (a.load_token_from_file path fs).2 =
            { a with
                access_token := d.access_token
                token_expires_at := d.expires_at
                config_access_token := d.access_token
                is_authenticated := true }) ∨
         (truthyStr d.access_token = false ∧
          (a.load_token_from_file path fs).2 =
            { a with
                access_token := d.access_token
                token_expires_at := d.expires_at })))) ∧
    (∀ (a : UpstoxAuth) (path now : String) (fs : FS) (w : Bool),
      (a.save_token_to_file path now fs w).2.1 = a) := by
  refine ⟨?_, ?_, ?_, ?_, ?_⟩
  · intro k s r env a h
    unfold UpstoxAuth.init at h
    by_cases hc : (truthyStr (pyOrStr k env.UPSTOX_API_KEY) = false ||
        truthyStr (pyOrStr s env.UPSTOX_API_SECRET) = false) = true
    · simp only [hc, if_true] at h
      exact absurd h (by simp)
    · simp only [hc, if_false] at h
      cases h
      exact ⟨rfl, rfl, rfl⟩
  · intro a code remote t h
    simp [UpstoxAuth.set_access_token, h]
  · intro a code e remote h
    simp [UpstoxAuth.set_access_token, h]
  · intro a path fs
    rcases hfs : fs path with _ | (_ | d)
    · exact Or.inl (by simp [UpstoxAuth.load_token_from_file, hfs])
    · exact Or.inl (by simp [UpstoxAuth.load_token_from_file, hfs])
    · refine Or.inr ⟨d, rfl, ?_⟩
      by_cases htok : truthyStr d.access_token = true
      · exact Or.inl ⟨htok, by simp [UpstoxAuth.load_token_from_file, hfs, htok]⟩
      · refine Or.inr ⟨by simpa using htok, ?_⟩
        simp [UpstoxAuth.load_token_from_file, hfs, htok]
  · intro a path now fs w
    exact (save_token_to_file_spec a path now fs w).1

/-- Witness for the amended claim C6: a successful exchange replaces
the session wholesale at a concrete input. -/
theorem session_mutation_shape_instance :
    (UpstoxAuth.set_access_token
        ⟨some "K", some "S", "u", none, none, none, false⟩
        "c" (fun _ => Except.ok ⟨"T", "u", "e", "i", "b"⟩)).2.1 =
      ⟨some "K", some "S", "u", some "T", some "T", some "3:30 AM next trading day", true⟩ := by
  have h := session_mutation_shape.2.1
    ⟨some "K", some "S", "u", none, none, none, false⟩
    "c" (fun _ => Except.ok ⟨"T", "u", "e", "i", "b"⟩)
    ⟨"T", "u", "e", "i", "b"⟩ rfl
  exact h

/-- Claim C7: for a manager constructed with non-empty key `K`, secret
and redirect `R`, `get_auth_url s` is the pure string with the fixed
dialog path followed by `response_type=code`, `client_id=K`,
`redirect_uri=R` and `state=s`, in exactly that order (no remote call
appears in its embedding). -/
theorem get_auth_url_spec :
    ∀ (K S R s : String) (env : Env) (a : UpstoxAuth),
    K.isEmpty = false → S.isEmpty = false → R.isEmpty = false →
    UpstoxAuth.init (some K) (some S) (some R) env = Except.ok a →
    a.get_auth_url s =
      "https://api.upstox.com/v2/login/authorization/dialog" ++
        "?response_type=code&client_id=" ++ K ++ "&redirect_uri=" ++ R ++
        "&state=" ++ s := by
  intro K S R s env a hK hS hR hinit
  simp [UpstoxAuth.init, pyOrStr, truthyStr, hK, hS, hR] at hinit
  subst hinit
  rfl

/-- Witness for claim C7 at the concrete scenario of the spec: key "K",
secret "S", redirect "http://localhost:8080", state "s1". -/
theorem get_auth_url_instance :
    (⟨some "K", some "S", "http://localhost:8080", none, none, none, false⟩
        : UpstoxAuth).get_auth_url "s1" =
      "https://api.upstox.com/v2/login/authorization/dialog" ++
        "?response_type=code&client_id=" ++ "K" ++ "&redirect_uri=" ++
        "http://localhost:8080" ++ "&state=" ++ "s1" :=
  get_auth_url_spec "K" "S" "http://localhost:8080" "s1"
    ⟨none, none, none⟩
    ⟨some "K", some "S", "http://localhost:8080", none, none, none, false⟩
    rfl rfl rfl rfl

/-- Claim C8: construction fails with the configuration error exactly
when key or secret resolves falsy after the Python `or` fallbacks, and
otherwise yields an object holding the resolved credentials, an empty
session, and the default redirect target when neither the argument nor
the environment supplies a truthy one. -/
theorem init_spec :
    ∀ (k s r : Option String) (env : Env),
    (truthyStr (pyOrStr k env.UPSTOX_API_KEY) = false ∨
        truthyStr (pyOrStr s env.UPSTOX_API_SECRET) = false →
      UpstoxAuth.init k s r env =
        Except.error "API key and secret are required. Provide them as parameters or set UPSTOX_API_KEY and UPSTOX_API_SECRET environment variables.") ∧
    (truthyStr (pyOrStr k env.UPSTOX_API_KEY) = true →
      truthyStr (pyOrStr s env.UPSTOX_API_SECRET) = true →
      ∃ a, UpstoxAuth.init k s r env = Except.ok a ∧
        a.api_key = pyOrStr k env.UPSTOX_API_KEY ∧
        a.api_secret = pyOrStr s env.UPSTOX_API_SECRET ∧
        a.access_token = none ∧ a.token_expires_at = none ∧
        a.is_authenticated = false ∧
        (truthyStr r = false → env.UPSTOX_REDIRECT_URI = none →
          a.redirect_uri = "http://localhost:8080")) := by
  intro k s r env
  constructor
  · intro h
    unfold UpstoxAuth.init
    have hc : (truthyStr (pyOrStr k env.UPSTOX_API_KEY) = false ||
        truthyStr (pyOrStr s env.UPSTOX_API_SECRET) = false) = true := by
      rcases h with h | h <;> simp [h]
    simp only [hc, if_true]
  · intro hk hs
    unfold UpstoxAuth.init
    have hc : (truthyStr (pyOrStr k env.UPSTOX_API_KEY) = false ||
        truthyStr (pyOrStr s env.UPSTOX_API_SECRET) = false) = false := by
      simp [hk, hs]
    simp only [hc, Bool.false_eq_true, if_false]
    refine ⟨_, rfl, rfl, rfl, rfl, rfl, rfl, ?_⟩
    intro hr henv
    cases r with
    | none => simp [henv]
    | some u =>
        have : u.isEmpty = true := by
          simpa [truthyStr] using hr
        simp [this, henv]

/-- Witness for claim C8: with the key argument absent and the
environment unset, construction fails with the configuration error. -/
theorem init_spec_instance :
    UpstoxAuth.init none (some "S") none ⟨none, none, none⟩ =
      Except.error "API key and secret are required. Provide them as parameters or set UPSTOX_API_KEY and UPSTOX_API_SECRET environment variables." :=
  (init_spec none (some "S") none ⟨none, none, none⟩).1 (Or.inl rfl)

theorem innerLoop_length_le (sl : String) (limit : Int) (cat : String) :
    ∀ (stocks : List Stock) (acc : List MatchRec),
    (acc.length : Int) < limit →
    ((innerLoop sl limit cat stocks acc).length : Int) ≤ limit := by
  intro stocks
  induction stocks with
  | nil => intro acc h; simpa [innerLoop] using le_of_lt h
  | cons stock rest ih =>
      intro acc h
      by_cases hm : stockMatches sl stock = true
      · simp only [innerLoop, hm, if_true]
        split
        · simp only [List.length_append, List.length_cons, List.length_nil]
          omega
        · apply ih
          next hlt =>
            simp only [List.length_append, List.length_cons, List.length_nil] at hlt ⊢
            omega
      · simp only [innerLoop, hm, if_false, Bool.false_eq_true]
        exact ih acc h

theorem outerLoop_length_le (sl : String) (limit : Int) :
    ∀ (cats : List (String × List Stock)) (acc : List MatchRec),
    (acc.length : Int) < limit →
    ((outerLoop sl limit cats acc).length : Int) ≤ limit := by
  intro cats
  induction cats with
  | nil => intro acc h; simpa [outerLoop] using le_of_lt h
  | cons p rest ih =>
      intro acc h
      obtain ⟨cat, stocks⟩ := p
      simp only [outerLoop]
      split
      · exact innerLoop_length_le sl limit cat stocks acc h
      · next hlt =>
          apply ih
          omega

theorem innerLoop_no_match (sl : String) (limit : Int) (cat : String) :
    ∀ (stocks : List Stock) (acc : List MatchRec),
    (∀ s ∈ stocks, stockMatches sl s = false) →
    innerLoop sl limit cat stocks acc = acc := by
  intro stocks
  induction stocks with
  | nil => intro acc _; rfl
  | cons stock rest ih =>
      intro acc hall
      have h0 : stockMatches sl stock = false := hall stock (by simp)
      simp only [innerLoop, h0, Bool.false_eq_true, if_false]
      exact ih acc (fun s hs => hall s (by simp [hs]))

theorem outerLoop_no_match (sl : String) (limit : Int) :
    ∀ (cats : List (String × List Stock)) (acc : List MatchRec),
    (∀ p ∈ cats, ∀ s ∈ p.2, stockMatches sl s = false) →
    outerLoop sl limit cats acc = acc := by
  intro cats
  induction cats with
  | nil => intro acc _; rfl
  | cons p rest ih =>
      intro acc hall
      obtain ⟨cat, stocks⟩ := p
      simp only [outerLoop]
      rw [innerLoop_no_match sl limit cat stocks acc
        (fun s hs => hall (cat, stocks) (by simp) s hs)]
      split
      · rfl
      · exact ih acc (fun q hq s hs => hall q (by simp [hq]) s hs)

/-- Claim C10: for every dataset and positive limit `n`, `search_stocks`
collects at most `n` matches (even when more stocks match), and when no
stock matches it returns the not-found text instead of raising. -/
theorem search_stocks_limit_spec :
    ∀ (cats : List (String × List Stock)) (term : String) (n : Int),
    0 < n →
    ((search_stocks_matches cats term n).length : Int) ≤ n ∧
    ((∀ p ∈ cats, ∀ s ∈ p.2, stockMatches (pyLower term) s = false) →
      search_stocks (some cats) term n =
        "❌ No stocks found matching \x27" ++ term ++ "\x27") := by
  intro cats term n hn
  constructor
  · exact outerLoop_length_le (pyLower term) n cats [] (by simpa using hn)
  · intro hall
    have hm : search_stocks_matches cats term n = [] :=
      outerLoop_no_match (pyLower term) n cats [] hall
    simp [search_stocks, hm]

/-- Witness for claim C10: with limit one, a dataset holding two
matching stocks yields at most one result, and a term matching nothing
yields the not-found text. -/
theorem search_stocks_limit_instance :
    ((search_stocks_matches
        [("IT", [⟨"TCS", some "Tata Consultancy", "k1"⟩,
                 ⟨"TCS2", some "Tata Two", "k2"⟩])] "tcs" 1).length : Int) ≤ 1 ∧
    search_stocks (some [("IT", [⟨"TCS", some "Tata Consultancy", "k1"⟩])])
        "zz" 1 =
      "❌ No stocks found matching \x27" ++ "zz" ++ "\x27" :=
  ⟨(search_stocks_limit_spec
      [("IT", [⟨"TCS", some "Tata Consultancy", "k1"⟩,
               ⟨"TCS2", some "Tata Two", "k2"⟩])] "tcs" 1 (by decide)).1,
   (search_stocks_limit_spec
      [("IT", [⟨"TCS", some "Tata Consultancy", "k1"⟩])] "zz" 1
      (by decide)).2 (by decide)⟩
